import Mathlib

/-!
Shallow embedding of the music-assistant-models repository
(src/music_assistant_models/media_items/__init__.py and
src/music_assistant_models/player.py), together with proofs about its
serialization contract, the media-item dispatch function `media_from_dict`,
and the derived properties of `Player`.

Python wire values (the JSON-like payloads handled by the mashumaro
`DataClassDictMixin` codecs) are embedded as the mutual inductive family
`PyVal` / `PyList` / `PyDict`. Python `float` is embedded as `Rat`
(exact arithmetic; the claims under study are about control flow and the
algebraic shape of the computed expressions, not rounding), Python `int`
as `Int`, and Python `set` as `Finset` (Python set equality is
extensional).
-/

/-! ## Python wire values -/

mutual
/-- A Python value as it appears in a (de)serialization payload:
`null` is Python `None`. -/
inductive PyVal where
  | null : PyVal
  | str (s : String) : PyVal
  | int (n : Int) : PyVal
  | float (q : Rat) : PyVal
  | bool (b : Bool) : PyVal
  | list (xs : PyList) : PyVal
  | dict (xs : PyDict) : PyVal
  deriving DecidableEq

/-- A Python list of `PyVal`s. -/
inductive PyList where
  | nil : PyList
  | cons (hd : PyVal) (tl : PyList) : PyList
  deriving DecidableEq

/-- A Python string-keyed dict of `PyVal`s, in insertion order. -/
inductive PyDict where
  | nil : PyDict
  | cons (k : String) (v : PyVal) (tl : PyDict) : PyDict
  deriving DecidableEq
end

def PyList.toList : PyList → List PyVal
  | .nil => []
  | .cons v tl => v :: tl.toList

def PyList.ofList : List PyVal → PyList
  | [] => .nil
  | v :: tl => .cons v (PyList.ofList tl)

/-- `d[k]` / `d.get(k)`: the value stored under `k`, if any. -/
def PyDict.lookup : PyDict → String → Option PyVal
  | .nil, _ => Option.none
  | .cons k v tl, key => if k = key then some v else tl.lookup key

/-- Python `key in d`. -/
def PyDict.hasKey (d : PyDict) (key : String) : Bool :=
  (d.lookup key).isSome

/-- The keys of the dict, in order. -/
def PyDict.keys : PyDict → List String
  | .nil => []
  | .cons k _ tl => k :: tl.keys

/-- Python `d[k] = v`: replace the value under an existing key in place,
append the pair at the end otherwise. -/
def PyDict.set : PyDict → String → PyVal → PyDict
  | .nil, key, val => .cons key val .nil
  | .cons k v tl, key, val =>
      if k = key then .cons k val tl else .cons k v (tl.set key val)

def PyDict.ofList : List (String × PyVal) → PyDict
  | [] => .nil
  | (k, v) :: tl => .cons k v (PyDict.ofList tl)

/-- Python truthiness of a value (`bool(v)`). -/
def PyVal.truthy : PyVal → Bool
  | .null => false
  | .str s => !(s == "")
  | .int n => !(n == 0)
  | .float q => !(q == 0)
  | .bool b => b
  | .list .nil => false
  | .list (.cons _ _) => true
  | .dict .nil => false
  | .dict (.cons _ _ _) => true

/-- Python `v == lit` for a string literal `lit` (as used by the
`media_from_dict` dispatch): true exactly when `v` is that string. -/
def pyEqStr (v : PyVal) (s : String) : Bool :=
  match v with
  | .str t => t == s
  | _ => false

/-! ## Shape-checked readers (spec section 4.2 and 7: a field of the wrong
shape is a validation failure, surfaced as `Option.none`). -/

def PyVal.asStr : PyVal → Option String
  | .str s => some s
  | _ => Option.none

def PyVal.asStrOpt : PyVal → Option (Option String)
  | .null => some Option.none
  | .str s => some (some s)
  | _ => Option.none

def PyVal.asBool : PyVal → Option Bool
  | .bool b => some b
  | _ => Option.none

def PyVal.asBoolOpt : PyVal → Option (Option Bool)
  | .null => some Option.none
  | .bool b => some (some b)
  | _ => Option.none

def PyVal.asInt : PyVal → Option Int
  | .int n => some n
  | _ => Option.none

def PyVal.asIntOpt : PyVal → Option (Option Int)
  | .null => some Option.none
  | .int n => some (some n)
  | _ => Option.none

def PyVal.asFloat : PyVal → Option Rat
  | .float q => some q
  | _ => Option.none

def PyVal.asFloatOpt : PyVal → Option (Option Rat)
  | .null => some Option.none
  | .float q => some (some q)
  | _ => Option.none

def PyVal.asList : PyVal → Option (List PyVal)
  | .list xs => some xs.toList
  | _ => Option.none

def PyVal.asDict : PyVal → Option PyDict
  | .dict xs => some xs
  | _ => Option.none

/-- Read a required field: a missing key is a validation failure
(spec section 4.2: missing required keys fail). -/
def PyDict.getReq (d : PyDict) (k : String) (parse : PyVal → Option α) : Option α :=
  match d.lookup k with
  | some v => parse v
  | Option.none => Option.none

/-- Read an optional field: a missing key yields the declared default
(spec section 4.2: missing optional keys default). -/
def PyDict.getD (d : PyDict) (k : String) (parse : PyVal → Option α) (dflt : α) : Option α :=
  match d.lookup k with
  | some v => parse v
  | Option.none => some dflt

/-- Encode `str | None`. -/
def encStrOpt : Option String → PyVal
  | some s => .str s
  | Option.none => .null

def encBoolOpt : Option Bool → PyVal
  | some b => .bool b
  | Option.none => .null

def encIntOpt : Option Int → PyVal
  | some n => .int n
  | Option.none => .null

def encFloatOpt : Option Rat → PyVal
  | some q => .float q
  | Option.none => .null

/-! ## DeviceInfo (player.py lines 16-33) -/

/-- Model for a player's deviceinfo (frozen dataclass, player.py). -/
structure DeviceInfo where
  model : String := "Unknown model"
  manufacturer : String := "Unknown Manufacturer"
  software_version : Option String := Option.none
  model_id : Option String := Option.none
  manufacturer_id : Option String := Option.none
  ip_address : Option String := Option.none
  mac_address : Option String := Option.none
  deriving DecidableEq

/-- The structural (field-for-field) encoding of `DeviceInfo`, before the
post-serialize hook runs (mashumaro's base `to_dict`, spec section 4.2). -/
def DeviceInfo.base_to_dict (di : DeviceInfo) : PyDict :=
  PyDict.ofList
    [("model", .str di.model),
     ("manufacturer", .str di.manufacturer),
     ("software_version", encStrOpt di.software_version),
     ("model_id", encStrOpt di.model_id),
     ("manufacturer_id", encStrOpt di.manufacturer_id),
     ("ip_address", encStrOpt di.ip_address),
     ("mac_address", encStrOpt di.mac_address)]

/-- `DeviceInfo.__post_serialize__` (player.py lines 28-33):
`d["address"] = d.get("ip_address") or ""`. -/
def DeviceInfo.post_serialize (d : PyDict) : PyDict :=
  d.set "address"
    (match d.lookup "ip_address" with
     | some v => if v.truthy then v else .str ""
     | Option.none => .str "")

/-- `DeviceInfo.to_dict`: the structural encoding followed by the
post-serialize hook. -/
def DeviceInfo.to_dict (di : DeviceInfo) : PyDict :=
  DeviceInfo.post_serialize di.base_to_dict

/-- `DeviceInfo.from_dict` (spec section 4.2: unknown keys ignored, missing
optional keys take the declared defaults). -/
def DeviceInfo.from_dict (d : PyDict) : Option DeviceInfo := do
  let model ← d.getD "model" PyVal.asStr "Unknown model"
  let manufacturer ← d.getD "manufacturer" PyVal.asStr "Unknown Manufacturer"
  let software_version ← d.getD "software_version" PyVal.asStrOpt Option.none
  let model_id ← d.getD "model_id" PyVal.asStrOpt Option.none
  let manufacturer_id ← d.getD "manufacturer_id" PyVal.asStrOpt Option.none
  let ip_address ← d.getD "ip_address" PyVal.asStrOpt Option.none
  let mac_address ← d.getD "mac_address" PyVal.asStrOpt Option.none
  pure { model := model, manufacturer := manufacturer,
         software_version := software_version, model_id := model_id,
         manufacturer_id := manufacturer_id, ip_address := ip_address,
         mac_address := mac_address }

theorem device_info_roundtrip (di : DeviceInfo) :
    DeviceInfo.from_dict di.to_dict = some di := by
  cases di with
  | mk model manufacturer software_version model_id manufacturer_id ip_address mac_address =>
    cases software_version <;> cases model_id <;> cases manufacturer_id <;>
      cases ip_address <;> cases mac_address <;> rfl

/-! ## Enums

Modelled from the spec: `enums.py` is not part of src. The spec (sections 3,
4.3 and 6) names the `media_type` discriminator values and the playback
states; all these enums serialize by their string value. `PlayerType` and
`PlayerFeature` are string-valued enums whose members the spec does not
enumerate, so they are modelled by their wire value. -/

/-- Modelled from the spec: `PlayerType` (enums.py, not in src) is a
string-valued enum, modelled by its wire value. -/
abbrev PlayerType := String

/-- Modelled from the spec: `PlayerFeature` (enums.py, not in src) is a
string-valued enum, modelled by its wire value. -/
abbrev PlayerFeature := String

/-- Modelled from the spec: the `media_type` discriminator values
(spec section 6), plus `unknown`, the default of `PlayerMedia.media_type`
(player.py line 41). -/
inductive MediaType where
  | artist | album | track | playlist | radio
  | audiobook | chapter | podcast | episode
  | browse_folder | playlist_track | unknown
  deriving DecidableEq

/-- The string value of a `MediaType` member (the enum serializes by value). -/
def MediaType.value : MediaType → String
  | .artist => "artist"
  | .album => "album"
  | .track => "track"
  | .playlist => "playlist"
  | .radio => "radio"
  | .audiobook => "audiobook"
  | .chapter => "chapter"
  | .podcast => "podcast"
  | .episode => "episode"
  | .browse_folder => "browse_folder"
  | .playlist_track => "playlist_track"
  | .unknown => "unknown"

def MediaType.ofValue (s : String) : Option MediaType :=
  if s = "artist" then some .artist
  else if s = "album" then some .album
  else if s = "track" then some .track
  else if s = "playlist" then some .playlist
  else if s = "radio" then some .radio
  else if s = "audiobook" then some .audiobook
  else if s = "chapter" then some .chapter
  else if s = "podcast" then some .podcast
  else if s = "episode" then some .episode
  else if s = "browse_folder" then some .browse_folder
  else if s = "playlist_track" then some .playlist_track
  else if s = "unknown" then some .unknown
  else Option.none

theorem mediaType_ofValue_value (m : MediaType) : MediaType.ofValue m.value = some m := by
  cases m <;> rfl

/-- Modelled from the spec: the playback states named in spec section 4.3
(`playing`, and the non-advancing states `paused` and `stopped`). -/
inductive PlayerState where
  | playing | paused | stopped
  deriving DecidableEq

def PlayerState.value : PlayerState → String
  | .playing => "playing"
  | .paused => "paused"
  | .stopped => "stopped"

def PlayerState.ofValue (s : String) : Option PlayerState :=
  if s = "playing" then some .playing
  else if s = "paused" then some .paused
  else if s = "stopped" then some .stopped
  else Option.none

theorem playerState_ofValue_value (st : PlayerState) :
    PlayerState.ofValue st.value = some st := by
  cases st <;> rfl

/-- Modelled from the spec: `PLAYER_CONTROL_NATIVE` (constants.py, not in
src) is an opaque string constant used as the default of the three
`*_control` fields. -/
def PLAYER_CONTROL_NATIVE : String := "native"

/-! ## PlayerSource (player.py lines 52-59) -/

/-- Model for a player source (frozen dataclass, player.py). -/
structure PlayerSource where
  id : String
  name : String
  passive : Bool := false
  deriving DecidableEq

def PlayerSource.to_dict (ps : PlayerSource) : PyDict :=
  PyDict.ofList
    [("id", .str ps.id),
     ("name", .str ps.name),
     ("passive", .bool ps.passive)]

def PlayerSource.from_dict (d : PyDict) : Option PlayerSource := do
  let id ← d.getReq "id" PyVal.asStr
  let name ← d.getReq "name" PyVal.asStr
  let passive ← d.getD "passive" PyVal.asBool false
  pure { id := id, name := name, passive := passive }

theorem player_source_roundtrip (ps : PlayerSource) :
    PlayerSource.from_dict ps.to_dict = some ps := rfl

/-! ## PlayerMedia (player.py lines 36-49) -/

/-- Metadata of media loading/loaded into a player (player.py).
`custom_data : dict[str, Any] | None` is embedded as `Option PyDict`. -/
structure PlayerMedia where
  uri : String
  media_type : MediaType := .unknown
  title : Option String := Option.none
  artist : Option String := Option.none
  album : Option String := Option.none
  image_url : Option String := Option.none
  duration : Option Int := Option.none
  queue_id : Option String := Option.none
  queue_item_id : Option String := Option.none
  custom_data : Option PyDict := Option.none
  deriving DecidableEq

def encDictOpt : Option PyDict → PyVal
  | some d => .dict d
  | Option.none => .null

def PyVal.asDictOpt : PyVal → Option (Option PyDict)
  | .null => some Option.none
  | .dict d => some (some d)
  | _ => Option.none

def PlayerMedia.to_dict (pm : PlayerMedia) : PyDict :=
  PyDict.ofList
    [("uri", .str pm.uri),
     ("media_type", .str pm.media_type.value),
     ("title", encStrOpt pm.title),
     ("artist", encStrOpt pm.artist),
     ("album", encStrOpt pm.album),
     ("image_url", encStrOpt pm.image_url),
     ("duration", encIntOpt pm.duration),
     ("queue_id", encStrOpt pm.queue_id),
     ("queue_item_id", encStrOpt pm.queue_item_id),
     ("custom_data", encDictOpt pm.custom_data)]

def PyVal.asMediaType (v : PyVal) : Option MediaType := do
  let s ← v.asStr
  MediaType.ofValue s

def PlayerMedia.from_dict (d : PyDict) : Option PlayerMedia := do
  let uri ← d.getReq "uri" PyVal.asStr
  let media_type ← d.getD "media_type" PyVal.asMediaType .unknown
  let title ← d.getD "title" PyVal.asStrOpt Option.none
  let artist ← d.getD "artist" PyVal.asStrOpt Option.none
  let album ← d.getD "album" PyVal.asStrOpt Option.none
  let image_url ← d.getD "image_url" PyVal.asStrOpt Option.none
  let duration ← d.getD "duration" PyVal.asIntOpt Option.none
  let queue_id ← d.getD "queue_id" PyVal.asStrOpt Option.none
  let queue_item_id ← d.getD "queue_item_id" PyVal.asStrOpt Option.none
  let custom_data ← d.getD "custom_data" PyVal.asDictOpt Option.none
  pure { uri := uri, media_type := media_type, title := title, artist := artist,
         album := album, image_url := image_url, duration := duration,
         queue_id := queue_id, queue_item_id := queue_item_id,
         custom_data := custom_data }

theorem asStrOpt_enc (o : Option String) : PyVal.asStrOpt (encStrOpt o) = some o := by
  cases o <;> rfl

theorem asBoolOpt_enc (o : Option Bool) : PyVal.asBoolOpt (encBoolOpt o) = some o := by
  cases o <;> rfl

theorem asIntOpt_enc (o : Option Int) : PyVal.asIntOpt (encIntOpt o) = some o := by
  cases o <;> rfl

theorem asFloatOpt_enc (o : Option Rat) : PyVal.asFloatOpt (encFloatOpt o) = some o := by
  cases o <;> rfl

theorem asDictOpt_enc (o : Option PyDict) : PyVal.asDictOpt (encDictOpt o) = some o := by
  cases o <;> rfl

theorem asMediaType_value (m : MediaType) :
    PyVal.asMediaType (.str m.value) = some m := by
  cases m <;> rfl

theorem player_media_roundtrip (pm : PlayerMedia) :
    PlayerMedia.from_dict pm.to_dict = some pm := by
  simp only [PlayerMedia.to_dict, PlayerMedia.from_dict, PyDict.ofList, PyDict.getReq,
    PyDict.getD, PyDict.lookup, String.reduceEq, reduceIte, PyVal.asStr,
    asStrOpt_enc, asIntOpt_enc, asDictOpt_enc, asMediaType_value, Option.bind,
    Option.pure_def, Option.bind_eq_bind, Option.some_bind]

/-! ## Generic sequence / set / unique-list codecs

Spec section 4.2: sets and the unique-ordered-sequence container serialize
as ordinary sequences on the wire. Python `set` is embedded as `Finset`
(extensional equality, matching Python set equality); its wire order is not
guaranteed, so the encoder picks the sorted order as a representative.
`UniqueList` (unique_list.py, not in src) is modelled from the spec
glossary: a sequence preserving insertion order while silently ignoring
duplicate insertions. -/

/-- Decode every element of a wire list, failing if any element fails. -/
def decodeList (g : PyVal → Option α) : List PyVal → Option (List α)
  | [] => some []
  | v :: tl => do
    let a ← g v
    let rest ← decodeList g tl
    pure (a :: rest)

def encodeList (f : α → PyVal) (xs : List α) : PyVal :=
  .list (PyList.ofList (xs.map f))

theorem PyList.toList_ofList (l : List PyVal) : (PyList.ofList l).toList = l := by
  induction l with
  | nil => rfl
  | cons v tl ih => simp [PyList.ofList, PyList.toList, ih]

theorem decodeList_enc (f : α → PyVal) (g : PyVal → Option α)
    (h : ∀ a, g (f a) = some a) (xs : List α) :
    decodeList g (xs.map f) = some xs := by
  induction xs with
  | nil => rfl
  | cons x tl ih => simp [decodeList, h, ih]

/-- Modelled from the spec: construction of a `UniqueList` from an iterable
(unique_list.py is not in src); keeps the first occurrence of each element,
silently ignoring duplicate insertions (spec glossary). -/
def UniqueList.ofList [DecidableEq α] (xs : List α) : List α :=
  xs.foldl (fun acc x => if x ∈ acc then acc else acc ++ [x]) []

theorem UniqueList.ofList_aux [DecidableEq α] (xs acc : List α)
    (hd : ∀ x ∈ xs, x ∉ acc) (hn : xs.Nodup) :
    xs.foldl (fun acc x => if x ∈ acc then acc else acc ++ [x]) acc = acc ++ xs := by
  induction xs generalizing acc with
  | nil => simp
  | cons x tl ih =>
    have hx : x ∉ acc := hd x (List.mem_cons_self x tl)
    have hn' : tl.Nodup := (List.nodup_cons.mp hn).2
    have hxtl : x ∉ tl := (List.nodup_cons.mp hn).1
    simp only [List.foldl_cons, if_neg hx]
    rw [ih (acc ++ [x])]
    · simp
    · intro y hy
      simp only [List.mem_append, List.mem_singleton]
      rintro (hya | hyx)
      · exact hd y (List.mem_cons_of_mem x hy) hya
      · exact hxtl (hyx ▸ hy)
    · exact hn'

theorem UniqueList.ofList_of_nodup [DecidableEq α] (xs : List α) (h : xs.Nodup) :
    UniqueList.ofList xs = xs := by
  have := UniqueList.ofList_aux xs [] (by simp) h
  simpa [UniqueList.ofList] using this

/-- Encode a Python `set` of strings (wire order: sorted representative). -/
def encStrSet (s : Finset String) : PyVal :=
  encodeList PyVal.str (s.sort (· ≤ ·))

def decStrSet (v : PyVal) : Option (Finset String) := do
  let l ← v.asList
  let ss ← decodeList PyVal.asStr l
  pure ss.toFinset

theorem decStrSet_enc (s : Finset String) : decStrSet (encStrSet s) = some s := by
  simp [decStrSet, encStrSet, encodeList, PyVal.asList, PyList.toList_ofList,
    decodeList_enc PyVal.str PyVal.asStr (fun _ => rfl), Finset.sort_toFinset]

/-- Encode a `UniqueList[str]`. -/
def encStrList (xs : List String) : PyVal :=
  encodeList PyVal.str xs

def decStrUniqueList (v : PyVal) : Option (List String) := do
  let l ← v.asList
  let ss ← decodeList PyVal.asStr l
  pure (UniqueList.ofList ss)

theorem decStrUniqueList_enc (xs : List String) (h : xs.Nodup) :
    decStrUniqueList (encStrList xs) = some xs := by
  simp [decStrUniqueList, encStrList, encodeList, PyVal.asList, PyList.toList_ofList,
    decodeList_enc PyVal.str PyVal.asStr (fun _ => rfl), UniqueList.ofList_of_nodup xs h]

/-- Encode a `UniqueList[PlayerSource]`. -/
def encPlayerSource (ps : PlayerSource) : PyVal :=
  .dict ps.to_dict

def decPlayerSource (v : PyVal) : Option PlayerSource :=
  v.asDict >>= PlayerSource.from_dict

theorem decPlayerSource_enc (ps : PlayerSource) :
    decPlayerSource (encPlayerSource ps) = some ps := by
  simp [decPlayerSource, encPlayerSource, PyVal.asDict, player_source_roundtrip]

def encSourceList (xs : List PlayerSource) : PyVal :=
  encodeList encPlayerSource xs

def decSourceList (v : PyVal) : Option (List PlayerSource) := do
  let l ← v.asList
  let ss ← decodeList decPlayerSource l
  pure (UniqueList.ofList ss)

theorem decSourceList_enc (xs : List PlayerSource) (h : xs.Nodup) :
    decSourceList (encSourceList xs) = some xs := by
  simp [decSourceList, encSourceList, encodeList, PyVal.asList, PyList.toList_ofList,
    decodeList_enc encPlayerSource decPlayerSource decPlayerSource_enc,
    UniqueList.ofList_of_nodup xs h]

/-- Encode `PlayerState | None` (the enum serializes by value). -/
def encStateOpt : Option PlayerState → PyVal
  | some st => .str st.value
  | Option.none => .null

def PyVal.asStateOpt : PyVal → Option (Option PlayerState)
  | .null => some Option.none
  | .str s => (PlayerState.ofValue s).map some
  | _ => Option.none

theorem asStateOpt_enc (o : Option PlayerState) :
    PyVal.asStateOpt (encStateOpt o) = some o := by
  cases o with
  | none => rfl
  | some st => simp [encStateOpt, PyVal.asStateOpt, playerState_ofValue_value]

/-- Encode `PlayerMedia | None`. -/
def encPlayerMediaOpt : Option PlayerMedia → PyVal
  | some pm => .dict pm.to_dict
  | Option.none => .null

def decPlayerMediaOpt : PyVal → Option (Option PlayerMedia)
  | .null => some Option.none
  | .dict d => (PlayerMedia.from_dict d).map some
  | _ => Option.none

theorem decPlayerMediaOpt_enc (o : Option PlayerMedia) :
    decPlayerMediaOpt (encPlayerMediaOpt o) = some o := by
  cases o with
  | none => rfl
  | some pm => simp [encPlayerMediaOpt, decPlayerMediaOpt, player_media_roundtrip]

def decDeviceInfo (v : PyVal) : Option DeviceInfo :=
  v.asDict >>= DeviceInfo.from_dict

theorem decDeviceInfo_enc (di : DeviceInfo) :
    decDeviceInfo (.dict di.to_dict) = some di := by
  simp [decDeviceInfo, PyVal.asDict, device_info_roundtrip]

/-! ## Player (player.py lines 62-215) -/

/-- Representation of a Player within Music Assistant (player.py).
Field order, defaults, and the two server-internal fields
(`previous_volume_level`, `last_poll`: `compare=False`,
`serialize="omit"`, `deserialize=pass_through`) follow the source.
`UniqueList` fields are embedded as `List`, `set` fields as `Finset`,
Python `float` as `Rat`. -/
structure Player where
  player_id : String
  provider : String
  type : PlayerType
  name : String
  available : Bool
  device_info : DeviceInfo
  supported_features : Finset PlayerFeature := ∅
  state : Option PlayerState := Option.none
  elapsed_time : Option Rat := Option.none
  elapsed_time_last_updated : Option Rat := Option.none
  powered : Option Bool := Option.none
  volume_level : Option Int := Option.none
  volume_muted : Option Bool := Option.none
  group_childs : List String := []
  can_group_with : Finset String := ∅
  synced_to : Option String := Option.none
  active_source : Option String := Option.none
  source_list : List PlayerSource := []
  active_group : Option String := Option.none
  current_media : Option PlayerMedia := Option.none
  enabled_by_default : Bool := true
  needs_poll : Bool := false
  poll_interval : Int := 30
  enabled : Bool := true
  hidden : Bool := false
  icon : String := "mdi-speaker"
  group_volume : Int := 100
  display_name : String := ""
  extra_data : PyDict := .nil
  announcement_in_progress : Bool := false
  power_control : String := PLAYER_CONTROL_NATIVE
  volume_control : String := PLAYER_CONTROL_NATIVE
  mute_control : String := PLAYER_CONTROL_NATIVE
  previous_volume_level : Option Int := Option.none
  last_poll : Rat := 0
  deriving DecidableEq

/-- `Player.to_dict`: the structural encoding, one key per declared field in
declaration order, except the two fields marked `serialize="omit"`
(`previous_volume_level`, `last_poll`), which are never emitted. -/
def Player.to_dict (p : Player) : PyDict :=
  PyDict.ofList
    [("player_id", .str p.player_id),
     ("provider", .str p.provider),
     ("type", .str p.type),
     ("name", .str p.name),
     ("available", .bool p.available),
     ("device_info", .dict p.device_info.to_dict),
     ("supported_features", encStrSet p.supported_features),
     ("state", encStateOpt p.state),
     ("elapsed_time", encFloatOpt p.elapsed_time),
     ("elapsed_time_last_updated", encFloatOpt p.elapsed_time_last_updated),
     ("powered", encBoolOpt p.powered),
     ("volume_level", encIntOpt p.volume_level),
     ("volume_muted", encBoolOpt p.volume_muted),
     ("group_childs", encStrList p.group_childs),
     ("can_group_with", encStrSet p.can_group_with),
     ("synced_to", encStrOpt p.synced_to),
     ("active_source", encStrOpt p.active_source),
     ("source_list", encSourceList p.source_list),
     ("active_group", encStrOpt p.active_group),
     ("current_media", encPlayerMediaOpt p.current_media),
     ("enabled_by_default", .bool p.enabled_by_default),
     ("needs_poll", .bool p.needs_poll),
     ("poll_interval", .int p.poll_interval),
     ("enabled", .bool p.enabled),
     ("hidden", .bool p.hidden),
     ("icon", .str p.icon),
     ("group_volume", .int p.group_volume),
     ("display_name", .str p.display_name),
     ("extra_data", .dict p.extra_data),
     ("announcement_in_progress", .bool p.announcement_in_progress),
     ("power_control", .str p.power_control),
     ("volume_control", .str p.volume_control),
     ("mute_control", .str p.mute_control)]

/-- Field group 1 of `Player.from_dict`: the six required identity fields. -/
def Player.dec_identity (d : PyDict) :
    Option (String × String × PlayerType × String × Bool × DeviceInfo) := do
  let player_id ← d.getReq "player_id" PyVal.asStr
  let provider ← d.getReq "provider" PyVal.asStr
  let type ← d.getReq "type" PyVal.asStr
  let name ← d.getReq "name" PyVal.asStr
  let available ← d.getReq "available" PyVal.asBool
  let device_info ← d.getReq "device_info" decDeviceInfo
  pure (player_id, provider, type, name, available, device_info)

/-- Field group 2 of `Player.from_dict`: capability set and runtime state. -/
def Player.dec_state (d : PyDict) :
    Option (Finset PlayerFeature × Option PlayerState × Option Rat × Option Rat ×
      Option Bool × Option Int × Option Bool) := do
  let supported_features ← d.getD "supported_features" decStrSet ∅
  let state ← d.getD "state" PyVal.asStateOpt Option.none
  let elapsed_time ← d.getD "elapsed_time" PyVal.asFloatOpt Option.none
  let elapsed_time_last_updated ← d.getD "elapsed_time_last_updated" PyVal.asFloatOpt Option.none
  let powered ← d.getD "powered" PyVal.asBoolOpt Option.none
  let volume_level ← d.getD "volume_level" PyVal.asIntOpt Option.none
  let volume_muted ← d.getD "volume_muted" PyVal.asBoolOpt Option.none
  pure (supported_features, state, elapsed_time, elapsed_time_last_updated,
    powered, volume_level, volume_muted)

/-- Field group 3 of `Player.from_dict`: grouping, sources and loaded media. -/
def Player.dec_grouping (d : PyDict) :
    Option (List String × Finset String × Option String × Option String ×
      List PlayerSource × Option String × Option PlayerMedia) := do
  let group_childs ← d.getD "group_childs" decStrUniqueList []
  let can_group_with ← d.getD "can_group_with" decStrSet ∅
  let synced_to ← d.getD "synced_to" PyVal.asStrOpt Option.none
  let active_source ← d.getD "active_source" PyVal.asStrOpt Option.none
  let source_list ← d.getD "source_list" decSourceList []
  let active_group ← d.getD "active_group" PyVal.asStrOpt Option.none
  let current_media ← d.getD "current_media" decPlayerMediaOpt Option.none
  pure (group_childs, can_group_with, synced_to, active_source, source_list,
    active_group, current_media)

/-- Field group 4 of `Player.from_dict`: provider flags and the first block
of player-manager fields. -/
def Player.dec_flags (d : PyDict) :
    Option (Bool × Bool × Int × Bool × Bool × String × Int × String) := do
  let enabled_by_default ← d.getD "enabled_by_default" PyVal.asBool true
  let needs_poll ← d.getD "needs_poll" PyVal.asBool false
  let poll_interval ← d.getD "poll_interval" PyVal.asInt 30
  let enabled ← d.getD "enabled" PyVal.asBool true
  let hidden ← d.getD "hidden" PyVal.asBool false
  let icon ← d.getD "icon" PyVal.asStr "mdi-speaker"
  let group_volume ← d.getD "group_volume" PyVal.asInt 100
  let display_name ← d.getD "display_name" PyVal.asStr ""
  pure (enabled_by_default, needs_poll, poll_interval, enabled, hidden, icon,
    group_volume, display_name)

/-- Field group 5 of `Player.from_dict`: remaining manager fields and the two
server-internal pass-through fields. -/
def Player.dec_controls (d : PyDict) :
    Option (PyDict × Bool × String × String × String × Option Int × Rat) := do
  let extra_data ← d.getD "extra_data" PyVal.asDict .nil
  let announcement_in_progress ← d.getD "announcement_in_progress" PyVal.asBool false
  let power_control ← d.getD "power_control" PyVal.asStr PLAYER_CONTROL_NATIVE
  let volume_control ← d.getD "volume_control" PyVal.asStr PLAYER_CONTROL_NATIVE
  let mute_control ← d.getD "mute_control" PyVal.asStr PLAYER_CONTROL_NATIVE
  let previous_volume_level ← d.getD "previous_volume_level" PyVal.asIntOpt Option.none
  let last_poll ← d.getD "last_poll" PyVal.asFloat 0
  pure (extra_data, announcement_in_progress, power_control, volume_control,
    mute_control, previous_volume_level, last_poll)

/-- `Player.from_dict` (spec section 4.2), assembled from the five field
groups above, which together read every declared field in declaration
order. -/
def Player.from_dict (d : PyDict) : Option Player := do
  let (player_id, provider, type, name, available, device_info) ← Player.dec_identity d
  let (supported_features, state, elapsed_time, elapsed_time_last_updated,
    powered, volume_level, volume_muted) ← Player.dec_state d
  let (group_childs, can_group_with, synced_to, active_source, source_list,
    active_group, current_media) ← Player.dec_grouping d
  let (enabled_by_default, needs_poll, poll_interval, enabled, hidden, icon,
    group_volume, display_name) ← Player.dec_flags d
  let (extra_data, announcement_in_progress, power_control, volume_control,
    mute_control, previous_volume_level, last_poll) ← Player.dec_controls d
  pure { player_id := player_id, provider := provider, type := type, name := name,
         available := available, device_info := device_info,
         supported_features := supported_features, state := state,
         elapsed_time := elapsed_time,
         elapsed_time_last_updated := elapsed_time_last_updated,
         powered := powered, volume_level := volume_level,
         volume_muted := volume_muted, group_childs := group_childs,
         can_group_with := can_group_with, synced_to := synced_to,
         active_source := active_source, source_list := source_list,
         active_group := active_group, current_media := current_media,
         enabled_by_default := enabled_by_default, needs_poll := needs_poll,
         poll_interval := poll_interval, enabled := enabled, hidden := hidden,
         icon := icon, group_volume := group_volume, display_name := display_name,
         extra_data := extra_data,
         announcement_in_progress := announcement_in_progress,
         power_control := power_control, volume_control := volume_control,
         mute_control := mute_control,
         previous_volume_level := previous_volume_level, last_poll := last_poll }

/-- A validly-constructed `Player`: its unique-ordered-sequence fields hold
no duplicates (the `UniqueList` construction invariant, spec glossary). -/
def Player.valid (p : Player) : Prop :=
  p.group_childs.Nodup ∧ p.source_list.Nodup

/-- A `Player` with its two server-internal fields reset to their declared
defaults; dataclass equality (`compare=False` on exactly those two fields)
identifies `p` with `p.scrub`. -/
def Player.scrub (p : Player) : Player :=
  { p with previous_volume_level := Option.none, last_poll := 0 }

/-- Dataclass `__eq__` of `Player`: field-for-field comparison over every
field except the two declared with `compare=False`
(`previous_volume_level`, `last_poll`). -/
def Player.pyEq (a b : Player) : Prop :=
  a.scrub = b.scrub

theorem Player.lookup_player_id (p : Player) :
    p.to_dict.lookup "player_id" = some (.str p.player_id) := rfl
theorem Player.lookup_provider (p : Player) :
    p.to_dict.lookup "provider" = some (.str p.provider) := rfl
theorem Player.lookup_type (p : Player) :
    p.to_dict.lookup "type" = some (.str p.type) := rfl
theorem Player.lookup_name (p : Player) :
    p.to_dict.lookup "name" = some (.str p.name) := rfl
theorem Player.lookup_available (p : Player) :
    p.to_dict.lookup "available" = some (.bool p.available) := rfl
theorem Player.lookup_device_info (p : Player) :
    p.to_dict.lookup "device_info" = some (.dict p.device_info.to_dict) := rfl
theorem Player.lookup_supported_features (p : Player) :
    p.to_dict.lookup "supported_features" = some (encStrSet p.supported_features) := rfl
theorem Player.lookup_state (p : Player) :
    p.to_dict.lookup "state" = some (encStateOpt p.state) := rfl
theorem Player.lookup_elapsed_time (p : Player) :
    p.to_dict.lookup "elapsed_time" = some (encFloatOpt p.elapsed_time) := rfl
theorem Player.lookup_elapsed_time_last_updated (p : Player) :
    p.to_dict.lookup "elapsed_time_last_updated" =
      some (encFloatOpt p.elapsed_time_last_updated) := rfl
theorem Player.lookup_powered (p : Player) :
    p.to_dict.lookup "powered" = some (encBoolOpt p.powered) := rfl
theorem Player.lookup_volume_level (p : Player) :
    p.to_dict.lookup "volume_level" = some (encIntOpt p.volume_level) := rfl
theorem Player.lookup_volume_muted (p : Player) :
    p.to_dict.lookup "volume_muted" = some (encBoolOpt p.volume_muted) := rfl
theorem Player.lookup_group_childs (p : Player) :
    p.to_dict.lookup "group_childs" = some (encStrList p.group_childs) := rfl
theorem Player.lookup_can_group_with (p : Player) :
    p.to_dict.lookup "can_group_with" = some (encStrSet p.can_group_with) := rfl
theorem Player.lookup_synced_to (p : Player) :
    p.to_dict.lookup "synced_to" = some (encStrOpt p.synced_to) := rfl
theorem Player.lookup_active_source (p : Player) :
    p.to_dict.lookup "active_source" = some (encStrOpt p.active_source) := rfl
theorem Player.lookup_source_list (p : Player) :
    p.to_dict.lookup "source_list" = some (encSourceList p.source_list) := rfl
theorem Player.lookup_active_group (p : Player) :
    p.to_dict.lookup "active_group" = some (encStrOpt p.active_group) := rfl
theorem Player.lookup_current_media (p : Player) :
    p.to_dict.lookup "current_media" = some (encPlayerMediaOpt p.current_media) := rfl
theorem Player.lookup_enabled_by_default (p : Player) :
    p.to_dict.lookup "enabled_by_default" = some (.bool p.enabled_by_default) := rfl
theorem Player.lookup_needs_poll (p : Player) :
    p.to_dict.lookup "needs_poll" = some (.bool p.needs_poll) := rfl
theorem Player.lookup_poll_interval (p : Player) :
    p.to_dict.lookup "poll_interval" = some (.int p.poll_interval) := rfl
theorem Player.lookup_enabled (p : Player) :
    p.to_dict.lookup "enabled" = some (.bool p.enabled) := rfl
theorem Player.lookup_hidden (p : Player) :
    p.to_dict.lookup "hidden" = some (.bool p.hidden) := rfl
theorem Player.lookup_icon (p : Player) :
    p.to_dict.lookup "icon" = some (.str p.icon) := rfl
theorem Player.lookup_group_volume (p : Player) :
    p.to_dict.lookup "group_volume" = some (.int p.group_volume) := rfl
theorem Player.lookup_display_name (p : Player) :
    p.to_dict.lookup "display_name" = some (.str p.display_name) := rfl
theorem Player.lookup_extra_data (p : Player) :
    p.to_dict.lookup "extra_data" = some (.dict p.extra_data) := rfl
theorem Player.lookup_announcement_in_progress (p : Player) :
    p.to_dict.lookup "announcement_in_progress" =
      some (.bool p.announcement_in_progress) := rfl
theorem Player.lookup_power_control (p : Player) :
    p.to_dict.lookup "power_control" = some (.str p.power_control) := rfl
theorem Player.lookup_volume_control (p : Player) :
    p.to_dict.lookup "volume_control" = some (.str p.volume_control) := rfl
theorem Player.lookup_mute_control (p : Player) :
    p.to_dict.lookup "mute_control" = some (.str p.mute_control) := rfl

/-- The two `serialize="omit"` fields have no key in the encoded payload. -/
theorem Player.lookup_previous_volume_level (p : Player) :
    p.to_dict.lookup "previous_volume_level" = Option.none := rfl
theorem Player.lookup_last_poll (p : Player) :
    p.to_dict.lookup "last_poll" = Option.none := rfl

theorem Player.dec_identity_to_dict (p : Player) :
    Player.dec_identity p.to_dict =
      some (p.player_id, p.provider, p.type, p.name, p.available, p.device_info) := by
  simp only [Player.dec_identity, PyDict.getReq,
    Player.lookup_player_id, Player.lookup_provider, Player.lookup_type,
    Player.lookup_name, Player.lookup_available, Player.lookup_device_info,
    PyVal.asStr, PyVal.asBool, decDeviceInfo_enc,
    Option.pure_def, Option.bind_eq_bind, Option.some_bind]

theorem Player.dec_state_to_dict (p : Player) :
    Player.dec_state p.to_dict =
      some (p.supported_features, p.state, p.elapsed_time,
        p.elapsed_time_last_updated, p.powered, p.volume_level, p.volume_muted) := by
  simp only [Player.dec_state, PyDict.getD,
    Player.lookup_supported_features, Player.lookup_state,
    Player.lookup_elapsed_time, Player.lookup_elapsed_time_last_updated,
    Player.lookup_powered, Player.lookup_volume_level, Player.lookup_volume_muted,
    decStrSet_enc, asStateOpt_enc, asFloatOpt_enc, asBoolOpt_enc, asIntOpt_enc,
    Option.pure_def, Option.bind_eq_bind, Option.some_bind]

theorem Player.dec_grouping_to_dict (p : Player)
    (hg : p.group_childs.Nodup) (hs : p.source_list.Nodup) :
    Player.dec_grouping p.to_dict =
      some (p.group_childs, p.can_group_with, p.synced_to, p.active_source,
        p.source_list, p.active_group, p.current_media) := by
  simp only [Player.dec_grouping, PyDict.getD,
    Player.lookup_group_childs, Player.lookup_can_group_with,
    Player.lookup_synced_to, Player.lookup_active_source,
    Player.lookup_source_list, Player.lookup_active_group,
    Player.lookup_current_media,
    decStrUniqueList_enc p.group_childs hg, decStrSet_enc, asStrOpt_enc,
    decSourceList_enc p.source_list hs, decPlayerMediaOpt_enc,
    Option.pure_def, Option.bind_eq_bind, Option.some_bind]

theorem Player.dec_flags_to_dict (p : Player) :
    Player.dec_flags p.to_dict =
      some (p.enabled_by_default, p.needs_poll, p.poll_interval, p.enabled,
        p.hidden, p.icon, p.group_volume, p.display_name) := by
  simp only [Player.dec_flags, PyDict.getD,
    Player.lookup_enabled_by_default, Player.lookup_needs_poll,
    Player.lookup_poll_interval, Player.lookup_enabled, Player.lookup_hidden,
    Player.lookup_icon, Player.lookup_group_volume, Player.lookup_display_name,
    PyVal.asBool, PyVal.asInt, PyVal.asStr,
    Option.pure_def, Option.bind_eq_bind, Option.some_bind]

theorem Player.dec_controls_to_dict (p : Player) :
    Player.dec_controls p.to_dict =
      some (p.extra_data, p.announcement_in_progress, p.power_control,
        p.volume_control, p.mute_control, Option.none, 0) := by
  simp only [Player.dec_controls, PyDict.getD,
    Player.lookup_extra_data, Player.lookup_announcement_in_progress,
    Player.lookup_power_control, Player.lookup_volume_control,
    Player.lookup_mute_control, Player.lookup_previous_volume_level,
    Player.lookup_last_poll,
    PyVal.asDict, PyVal.asBool, PyVal.asStr,
    Option.pure_def, Option.bind_eq_bind, Option.some_bind]

theorem player_roundtrip (p : Player)
    (hg : p.group_childs.Nodup) (hs : p.source_list.Nodup) :
    Player.from_dict p.to_dict = some p.scrub := by
  simp only [Player.from_dict, Player.scrub,
    Player.dec_identity_to_dict, Player.dec_state_to_dict,
    Player.dec_grouping_to_dict p hg hs, Player.dec_flags_to_dict,
    Player.dec_controls_to_dict,
    Option.pure_def, Option.bind_eq_bind, Option.some_bind]

/-! ## Player helper properties (player.py lines 196-215) -/

/-- `Player.corrected_elapsed_time` (player.py lines 196-203). The Python
property reads the wall clock with `time.time()`; the clock read is passed
in explicitly as `now`. -/
def Player.corrected_elapsed_time (p : Player) (now : Rat) : Option Rat :=
  match p.elapsed_time, p.elapsed_time_last_updated with
  | some elapsed, some updated =>
      if p.state = some PlayerState.playing then some (elapsed + (now - updated))
      else some elapsed
  | _, _ => Option.none

/-- `Player.current_item_id` read accessor (player.py lines 205-210):
the URI of `current_media` if present. -/
def Player.current_item_id (p : Player) : Option String :=
  match p.current_media with
  | some media => some media.uri
  | Option.none => Option.none

/-- `Player.current_item_id` write accessor (player.py lines 212-215):
`self.current_media = PlayerMedia(uri)` — replaces `current_media`
wholesale with a `PlayerMedia` built from the URI alone (every other field
at its declared default). -/
def Player.set_current_item_id (p : Player) (uri : String) : Player :=
  { p with current_media := some { uri := uri } }

/-! ## Media item dispatch (media_items/__init__.py lines 61-111) -/

/-- The Python exceptions `media_from_dict` can raise: a `KeyError` from
the `media_item["media_type"]` subscript, or the `InvalidDataError`
raised explicitly (errors.py is not in src; the two exception types are
modelled as distinguishable constructors). -/
inductive PyErr where
  | keyError (key : String)
  | invalidDataError (msg : String)
  deriving DecidableEq

/-- The `MediaItemType | ItemMapping` result of `media_from_dict`
(media_items/__init__.py lines 61-73 declare the union). The variant
schemas live in media_item.py, which is not part of src, so each variant
decoder `X.from_dict` is modelled abstractly as the tagged payload it was
dispatched with. `playlistTrack` and `browseFolder` are members of the
union that `media_from_dict` never produces. -/
inductive MediaItemType where
  | itemMapping (d : PyDict)
  | artist (d : PyDict)
  | album (d : PyDict)
  | track (d : PyDict)
  | playlist (d : PyDict)
  | radio (d : PyDict)
  | audiobook (d : PyDict)
  | chapter (d : PyDict)
  | podcast (d : PyDict)
  | episode (d : PyDict)
  | playlistTrack (d : PyDict)
  | browseFolder (d : PyDict)
  deriving DecidableEq

/-- `media_from_dict` (media_items/__init__.py lines 89-111): return
MediaItem from dict. The structural reference check comes first; then the
`media_type` subscript (a `KeyError` if the key is absent) is compared
against the nine known tags in source order; anything else raises
`InvalidDataError("Unknown media type")`. -/
def media_from_dict (media_item : PyDict) : Except PyErr MediaItemType :=
  if ¬ media_item.hasKey "provider_mappings" then
    .ok (.itemMapping media_item)
  else
    match media_item.lookup "media_type" with
    | Option.none => .error (.keyError "media_type")
    | some v =>
      if pyEqStr v "artist" then .ok (.artist media_item)
      else if pyEqStr v "album" then .ok (.album media_item)
      else if pyEqStr v "track" then .ok (.track media_item)
      else if pyEqStr v "playlist" then .ok (.playlist media_item)
      else if pyEqStr v "radio" then .ok (.radio media_item)
      else if pyEqStr v "audiobook" then .ok (.audiobook media_item)
      else if pyEqStr v "chapter" then .ok (.chapter media_item)
      else if pyEqStr v "podcast" then .ok (.podcast media_item)
      else if pyEqStr v "episode" then .ok (.episode media_item)
      else .error (.invalidDataError "Unknown media type")

/-- The nine `media_type` tags `media_from_dict` dispatches on, in source
order (media_items/__init__.py lines 93-110). -/
def knownMediaTypeTags : List String :=
  ["artist", "album", "track", "playlist", "radio",
   "audiobook", "chapter", "podcast", "episode"]

/-! ## ItemMapping and SearchResults -/

/-- Modelled from the spec: `ItemMapping` (media_item.py, not in src) is a
minimal reference to a media item carrying id, media_type, name and
provider (spec section 3). -/
structure ItemMapping where
  id : String
  media_type : MediaType
  name : String
  provider : String
  deriving DecidableEq

def ItemMapping.to_dict (im : ItemMapping) : PyDict :=
  PyDict.ofList
    [("id", .str im.id),
     ("media_type", .str im.media_type.value),
     ("name", .str im.name),
     ("provider", .str im.provider)]

def ItemMapping.from_dict_full (d : PyDict) : Option ItemMapping := do
  let id ← d.getReq "id" PyVal.asStr
  let media_type ← d.getReq "media_type" PyVal.asMediaType
  let name ← d.getReq "name" PyVal.asStr
  let provider ← d.getReq "provider" PyVal.asStr
  pure { id := id, media_type := media_type, name := name, provider := provider }

theorem item_mapping_roundtrip (im : ItemMapping) :
    ItemMapping.from_dict_full im.to_dict = some im := by
  simp only [ItemMapping.to_dict, ItemMapping.from_dict_full, PyDict.ofList,
    PyDict.getReq, PyDict.lookup, String.reduceEq, reduceIte, PyVal.asStr,
    asMediaType_value, Option.pure_def, Option.bind_eq_bind, Option.some_bind]

def encItemMapping (im : ItemMapping) : PyVal :=
  .dict im.to_dict

def decItemMapping (v : PyVal) : Option ItemMapping :=
  v.asDict >>= ItemMapping.from_dict_full

theorem decItemMapping_enc (im : ItemMapping) :
    decItemMapping (encItemMapping im) = some im := by
  simp [decItemMapping, encItemMapping, PyVal.asDict, item_mapping_roundtrip]

def encItemList (xs : List ItemMapping) : PyVal :=
  encodeList encItemMapping xs

def decItemList (v : PyVal) : Option (List ItemMapping) := do
  let l ← v.asList
  decodeList decItemMapping l

theorem decItemList_enc (xs : List ItemMapping) :
    decItemList (encItemList xs) = some xs := by
  simp [decItemList, encItemList, encodeList, PyVal.asList, PyList.toList_ofList,
    decodeList_enc encItemMapping decItemMapping decItemMapping_enc]

/-- Model for results from a search query (media_items/__init__.py lines
76-87). The declared element type of each sequence is a union of one full
variant with `ItemMapping`; the full variant schemas live in media_item.py,
which is not in src, so elements are modelled by the reference
(`ItemMapping`) schema. -/
structure SearchResults where
  artists : List ItemMapping := []
  albums : List ItemMapping := []
  tracks : List ItemMapping := []
  playlists : List ItemMapping := []
  radio : List ItemMapping := []
  audiobooks : List ItemMapping := []
  podcasts : List ItemMapping := []
  deriving DecidableEq

def SearchResults.to_dict (sr : SearchResults) : PyDict :=
  PyDict.ofList
    [("artists", encItemList sr.artists),
     ("albums", encItemList sr.albums),
     ("tracks", encItemList sr.tracks),
     ("playlists", encItemList sr.playlists),
     ("radio", encItemList sr.radio),
     ("audiobooks", encItemList sr.audiobooks),
     ("podcasts", encItemList sr.podcasts)]

def SearchResults.from_dict (d : PyDict) : Option SearchResults := do
  let artists ← d.getD "artists" decItemList []
  let albums ← d.getD "albums" decItemList []
  let tracks ← d.getD "tracks" decItemList []
  let playlists ← d.getD "playlists" decItemList []
  let radio ← d.getD "radio" decItemList []
  let audiobooks ← d.getD "audiobooks" decItemList []
  let podcasts ← d.getD "podcasts" decItemList []
  pure { artists := artists, albums := albums, tracks := tracks,
         playlists := playlists, radio := radio, audiobooks := audiobooks,
         podcasts := podcasts }

theorem SearchResults.lookup_artists (sr : SearchResults) :
    sr.to_dict.lookup "artists" = some (encItemList sr.artists) := rfl
theorem SearchResults.lookup_albums (sr : SearchResults) :
    sr.to_dict.lookup "albums" = some (encItemList sr.albums) := rfl
theorem SearchResults.lookup_tracks (sr : SearchResults) :
    sr.to_dict.lookup "tracks" = some (encItemList sr.tracks) := rfl
theorem SearchResults.lookup_playlists (sr : SearchResults) :
    sr.to_dict.lookup "playlists" = some (encItemList sr.playlists) := rfl
theorem SearchResults.lookup_radio (sr : SearchResults) :
    sr.to_dict.lookup "radio" = some (encItemList sr.radio) := rfl
theorem SearchResults.lookup_audiobooks (sr : SearchResults) :
    sr.to_dict.lookup "audiobooks" = some (encItemList sr.audiobooks) := rfl
theorem SearchResults.lookup_podcasts (sr : SearchResults) :
    sr.to_dict.lookup "podcasts" = some (encItemList sr.podcasts) := rfl

theorem search_results_roundtrip (sr : SearchResults) :
    SearchResults.from_dict sr.to_dict = some sr := by
  simp only [SearchResults.from_dict, PyDict.getD,
    SearchResults.lookup_artists, SearchResults.lookup_albums,
    SearchResults.lookup_tracks, SearchResults.lookup_playlists,
    SearchResults.lookup_radio, SearchResults.lookup_audiobooks,
    SearchResults.lookup_podcasts, decItemList_enc,
    Option.pure_def, Option.bind_eq_bind, Option.some_bind]

/-! ## The claims -/

/-- C1: for every string-keyed mapping that does not contain the key
`provider_mappings`, `media_from_dict` dispatches to `ItemMapping.from_dict`
and returns its result, regardless of the value of the `media_type` field:
the structural reference check takes precedence over tag dispatch. -/
theorem C1_reference_check_precedes_dispatch (d : PyDict)
    (h : d.hasKey "provider_mappings" = false) :
    media_from_dict d = .ok (.itemMapping d) := by
  simp [media_from_dict, h]

theorem C1_reference_check_precedes_dispatch_witness :
    media_from_dict
      (PyDict.ofList [("media_type", .str "track"), ("name", .str "x")]) =
      .ok (.itemMapping
        (PyDict.ofList [("media_type", .str "track"), ("name", .str "x")])) :=
  C1_reference_check_precedes_dispatch _ (by decide)

/-- C2: for every mapping that contains the key `provider_mappings` and
whose `media_type` value matches none of the nine known tag strings,
`media_from_dict` fails with the unknown-media-type `InvalidDataError`. -/
theorem C2_unknown_media_type_rejected (d : PyDict) (v : PyVal)
    (hpm : d.hasKey "provider_mappings" = true)
    (hmt : d.lookup "media_type" = some v)
    (hunk : ∀ tag ∈ knownMediaTypeTags, pyEqStr v tag = false) :
    media_from_dict d = .error (.invalidDataError "Unknown media type") := by
  have h1 := hunk "artist" (by simp [knownMediaTypeTags])
  have h2 := hunk "album" (by simp [knownMediaTypeTags])
  have h3 := hunk "track" (by simp [knownMediaTypeTags])
  have h4 := hunk "playlist" (by simp [knownMediaTypeTags])
  have h5 := hunk "radio" (by simp [knownMediaTypeTags])
  have h6 := hunk "audiobook" (by simp [knownMediaTypeTags])
  have h7 := hunk "chapter" (by simp [knownMediaTypeTags])
  have h8 := hunk "podcast" (by simp [knownMediaTypeTags])
  have h9 := hunk "episode" (by simp [knownMediaTypeTags])
  simp [media_from_dict, hpm, hmt, h1, h2, h3, h4, h5, h6, h7, h8, h9]

theorem C2_unknown_media_type_rejected_witness :
    media_from_dict
      (PyDict.ofList [("media_type", .str "bogus"), ("provider_mappings", .list .nil)]) =
      .error (.invalidDataError "Unknown media type") :=
  C2_unknown_media_type_rejected _ (.str "bogus") (by decide) (by decide) (by decide)

/-- C8 counterexample: a mapping with `provider_mappings` and
`media_type = "playlist_track"` is rejected with the unknown-media-type
error; it is not decoded as the `PlaylistTrack` variant. -/
theorem C8_playlist_track_counterexample :
    media_from_dict
      (PyDict.ofList [("media_type", .str "playlist_track"),
        ("provider_mappings", .list .nil)]) =
      .error (.invalidDataError "Unknown media type") ∧
    media_from_dict
      (PyDict.ofList [("media_type", .str "playlist_track"),
        ("provider_mappings", .list .nil)]) ≠
      .ok (.playlistTrack
        (PyDict.ofList [("media_type", .str "playlist_track"),
          ("provider_mappings", .list .nil)])) := by
  constructor
  · rfl
  · intro h
    simp [media_from_dict, PyDict.ofList, PyDict.hasKey, PyDict.lookup, pyEqStr] at h

/-- C8 (amended): `playlist_track` is not among the nine tags
`media_from_dict` dispatches on; every mapping carrying `provider_mappings`
whose `media_type` is `"playlist_track"` fails with the unknown-media-type
error. -/
theorem C8_playlist_track_rejected (d : PyDict)
    (hpm : d.hasKey "provider_mappings" = true)
    (hmt : d.lookup "media_type" = some (.str "playlist_track")) :
    media_from_dict d = .error (.invalidDataError "Unknown media type") := by
  simp [media_from_dict, hpm, hmt, pyEqStr]

theorem C8_playlist_track_rejected_witness :
    media_from_dict
      (PyDict.ofList [("media_type", .str "playlist_track"),
        ("provider_mappings", .list .nil)]) =
      .error (.invalidDataError "Unknown media type") :=
  C8_playlist_track_rejected _ (by decide) (by decide)

/-- C9: a mapping that contains `provider_mappings` but no `media_type` key
fails with the `KeyError` raised by the subscript, not with the
unknown-media-type `InvalidDataError`; the two failure kinds are
distinguishable constructors of `PyErr`. -/
theorem C9_missing_media_type_is_key_error (d : PyDict)
    (hpm : d.hasKey "provider_mappings" = true)
    (hmt : d.lookup "media_type" = Option.none) :
    media_from_dict d = .error (.keyError "media_type") ∧
    ∀ msg, PyErr.keyError "media_type" ≠ PyErr.invalidDataError msg := by
  refine ⟨?_, fun msg h => by cases h⟩
  simp [media_from_dict, hpm, hmt]

theorem C9_missing_media_type_is_key_error_witness :
    media_from_dict (PyDict.ofList [("provider_mappings", .list .nil)]) =
      .error (.keyError "media_type") ∧
    ∀ msg, PyErr.keyError "media_type" ≠ PyErr.invalidDataError msg :=
  C9_missing_media_type_is_key_error _ (by decide) (by decide)

/-- C3: decode of encode is the identity for every model type defined in
src (DeviceInfo, PlayerSource, PlayerMedia, SearchResults — with its
elements modelled by the reference ItemMapping schema — and Player), for
every validly-constructed instance. For Player, the decoded value has the
two server-internal fields (omitted by the encoder) back at their declared
defaults and is dataclass-equal to the original. -/
theorem C3_decode_encode_roundtrip :
    (∀ di : DeviceInfo, DeviceInfo.from_dict di.to_dict = some di) ∧
    (∀ ps : PlayerSource, PlayerSource.from_dict ps.to_dict = some ps) ∧
    (∀ pm : PlayerMedia, PlayerMedia.from_dict pm.to_dict = some pm) ∧
    (∀ im : ItemMapping, ItemMapping.from_dict_full im.to_dict = some im) ∧
    (∀ sr : SearchResults, SearchResults.from_dict sr.to_dict = some sr) ∧
    (∀ p : Player, p.valid →
      Player.from_dict p.to_dict = some p.scrub ∧ Player.pyEq p.scrub p) := by
  refine ⟨device_info_roundtrip, player_source_roundtrip,
    player_media_roundtrip, item_mapping_roundtrip,
    search_results_roundtrip, fun p hv => ⟨player_roundtrip p hv.1 hv.2, ?_⟩⟩
  simp [Player.pyEq, Player.scrub]

/-- C4: `corrected_elapsed_time` yields nothing when `elapsed_time` or
`elapsed_time_last_updated` is unset; when the state is `playing` it
returns `elapsed_time + (now - elapsed_time_last_updated)` for the given
clock read `now`; for every other state it returns `elapsed_time`
unchanged. -/
theorem C4_corrected_elapsed_time_spec (p : Player) (now : Rat) :
    ((p.elapsed_time = Option.none ∨ p.elapsed_time_last_updated = Option.none) →
      p.corrected_elapsed_time now = Option.none) ∧
    (∀ elapsed updated, p.elapsed_time = some elapsed →
      p.elapsed_time_last_updated = some updated →
      (p.state = some PlayerState.playing →
        p.corrected_elapsed_time now = some (elapsed + (now - updated))) ∧
      (p.state ≠ some PlayerState.playing →
        p.corrected_elapsed_time now = some elapsed)) := by
  constructor
  · rintro (h | h)
    · simp [Player.corrected_elapsed_time, h]
    · rcases he : p.elapsed_time with _ | elapsed <;>
        simp [Player.corrected_elapsed_time, h, he]
  · intro elapsed updated he hu
    refine ⟨fun hs => ?_, fun hs => ?_⟩ <;>
      simp [Player.corrected_elapsed_time, he, hu, hs]

/-- C4 at the spec's concrete example: `elapsed_time = 10`, last updated at
time 100, evaluated at time 105: `playing` yields 15, `paused` yields
exactly 10. -/
theorem C4_corrected_elapsed_time_spec_witness :
    Player.corrected_elapsed_time
      { player_id := "p1", provider := "prov", type := "player", name := "P",
        available := true, device_info := {}, state := some PlayerState.playing,
        elapsed_time := some 10, elapsed_time_last_updated := some 100 } 105 =
      some 15 ∧
    Player.corrected_elapsed_time
      { player_id := "p1", provider := "prov", type := "player", name := "P",
        available := true, device_info := {}, state := some PlayerState.paused,
        elapsed_time := some 10, elapsed_time_last_updated := some 100 } 105 =
      some 10 := by
  have h := C4_corrected_elapsed_time_spec
    { player_id := "p1", provider := "prov", type := "player", name := "P",
      available := true, device_info := {}, state := some PlayerState.playing,
      elapsed_time := some 10, elapsed_time_last_updated := some 100 } 105
  have h' := C4_corrected_elapsed_time_spec
    { player_id := "p1", provider := "prov", type := "player", name := "P",
      available := true, device_info := {}, state := some PlayerState.paused,
      elapsed_time := some 10, elapsed_time_last_updated := some 100 } 105
  refine ⟨?_, ?_⟩
  · have hp := (h.2 10 100 rfl rfl).1 rfl
    rw [show (10 : Rat) + (105 - 100) = 15 by norm_num] at hp
    exact hp
  · exact (h'.2 10 100 rfl rfl).2 (by decide)

/-- C5: encoding a `DeviceInfo` always yields an `address` key holding the
encoded `ip_address` when it is set and the empty string otherwise,
alongside the `ip_address` key itself; every other model type's encoding
emits exactly its declared field names, with no post-processing. -/
theorem C5_device_info_address_alias :
    (∀ di : DeviceInfo,
      di.to_dict.lookup "address" = some (.str (di.ip_address.getD "")) ∧
      di.to_dict.lookup "ip_address" = some (encStrOpt di.ip_address) ∧
      di.to_dict.keys =
        ["model", "manufacturer", "software_version", "model_id",
         "manufacturer_id", "ip_address", "mac_address", "address"]) ∧
    (∀ ps : PlayerSource, ps.to_dict.keys = ["id", "name", "passive"]) ∧
    (∀ pm : PlayerMedia, pm.to_dict.keys =
      ["uri", "media_type", "title", "artist", "album", "image_url",
       "duration", "queue_id", "queue_item_id", "custom_data"]) ∧
    (∀ im : ItemMapping, im.to_dict.keys =
      ["id", "media_type", "name", "provider"]) ∧
    (∀ sr : SearchResults, sr.to_dict.keys =
      ["artists", "albums", "tracks", "playlists", "radio",
       "audiobooks", "podcasts"]) ∧
    (∀ p : Player, p.to_dict.keys =
      ["player_id", "provider", "type", "name", "available", "device_info",
       "supported_features", "state", "elapsed_time",
       "elapsed_time_last_updated", "powered", "volume_level", "volume_muted",
       "group_childs", "can_group_with", "synced_to", "active_source",
       "source_list", "active_group", "current_media", "enabled_by_default",
       "needs_poll", "poll_interval", "enabled", "hidden", "icon",
       "group_volume", "display_name", "extra_data",
       "announcement_in_progress", "power_control", "volume_control",
       "mute_control"]) := by
  refine ⟨fun di => ⟨?_, ?_, rfl⟩, fun ps => rfl, fun pm => rfl, fun im => rfl,
    fun sr => rfl, fun p => rfl⟩
  · rcases hip : di.ip_address with _ | s
    · simp [DeviceInfo.to_dict, DeviceInfo.post_serialize, DeviceInfo.base_to_dict,
        PyDict.ofList, PyDict.set, PyDict.lookup, encStrOpt, hip, PyVal.truthy]
    · by_cases hs : s = "" <;>
        simp [DeviceInfo.to_dict, DeviceInfo.post_serialize, DeviceInfo.base_to_dict,
          PyDict.ofList, PyDict.set, PyDict.lookup, encStrOpt, hip, PyVal.truthy, hs]
  · rcases hip : di.ip_address with _ | s <;>
      simp [DeviceInfo.to_dict, DeviceInfo.post_serialize, DeviceInfo.base_to_dict,
        PyDict.ofList, PyDict.set, PyDict.lookup, encStrOpt, hip]

/-- C6: the encoding of a `Player` never contains the keys
`previous_volume_level` or `last_poll`, whatever those fields hold. -/
theorem C6_internal_fields_never_serialized (p : Player) :
    p.to_dict.hasKey "previous_volume_level" = false ∧
    p.to_dict.hasKey "last_poll" = false :=
  ⟨rfl, rfl⟩

/-- C7: assigning a URI through the `current_item_id` setter replaces
`current_media` wholesale with a `PlayerMedia` built from the URI alone:
afterwards the URI matches and every optional metadata field is unset,
regardless of what `current_media` previously held. -/
theorem C7_setter_replaces_current_media (p : Player) (uri : String) :
    ∃ m, (p.set_current_item_id uri).current_media = some m ∧
      m.uri = uri ∧ m.media_type = MediaType.unknown ∧
      m.title = Option.none ∧ m.artist = Option.none ∧ m.album = Option.none ∧
      m.image_url = Option.none ∧ m.duration = Option.none ∧
      m.queue_id = Option.none ∧ m.queue_item_id = Option.none ∧
      m.custom_data = Option.none :=
  ⟨{ uri := uri }, rfl, rfl, rfl, rfl, rfl, rfl, rfl, rfl, rfl, rfl, rfl⟩

/-- C10: dataclass equality of `Player` ignores the two `compare=False`
fields: any two players that agree on every other field compare equal, and
decoding an encoded player (whose internal fields revert to defaults)
still compares equal to the original. -/
theorem C10_equality_ignores_internal_fields :
    (∀ (p : Player) (x : Option Int) (y : Rat),
      Player.pyEq p { p with previous_volume_level := x, last_poll := y }) ∧
    (∀ p : Player, p.valid →
      ∃ q, Player.from_dict p.to_dict = some q ∧ Player.pyEq q p) := by
  refine ⟨fun p x y => rfl, fun p hv => ⟨p.scrub, player_roundtrip p hv.1 hv.2, rfl⟩⟩
